import Mathlib

/-!
# Verification of the stellar-explorer ingestion pipeline and rule engine

Shallow embedding of the core of the `stellar-explorer` repository:

* `apps/api/app/services/ingestion_service.py` (entity upsert layer,
  counterparty graph accumulator, ingestion coordinator, checkpoint store),
* `apps/api/app/services/horizon_client.py` (source connector retry logic),
* `apps/worker/app/rules/engine.py` (rule engine dedup and materialization),
* `apps/worker/app/rules/large_transfer_rule.py`,
* `apps/api/app/db/models.py` (data model and unique constraints).

Modelling conventions:

* Database rows become Lean structures; a table is a `List` of rows inside a
  single `DB` state record.  Row ids are allocated from one `nextId` counter
  (Postgres serial columns start at 1, so every allocated id is positive).
* Timestamps (`datetime.utcnow()`, ISO `created_at` strings) are naturals
  (seconds); `datetime.fromisoformat` is the identity on this representation.
* `Decimal` amounts (`Numeric(20,7)` columns, parsed from Horizon's 7-dp
  decimal strings) are exact 7-decimal-place values; they are represented
  integrally in stroops, i.e. units of 10⁻⁷ (`Amount`), under which Decimal
  addition and comparison are integer addition and comparison: `"10"` is
  `100000000`, `"15000"` is `150000000000`, `"9999.9999999"` is
  `99999999999`.  The float `risk_score` column is a rational.
* A raw Horizon record (a JSON dict) is modelled as a structure holding the
  keys the code reads; `none` models an absent key.  Python truthiness of a
  string field (`if not tx_hash`) is `truthyStr`; paging tokens and ledger
  sequences are non-empty numeric strings / positive integers upstream, so
  `x or y` on them is modelled by option coalescing (`pyOr`).
* An ORM `query(...).first()` is `List.find?`; mutating the found object is
  `updateFirst`.
-/

deriving instance DecidableEq for Except

namespace StellarExplorer

/-- Python truthiness for an optional string: `None` and `""` are falsy. -/
def truthyStr : Option String → Option String
  | none => none
  | some s => if s = "" then none else some s

/-- Python `a or b` for optional fields whose present values are truthy. -/
def pyOr {α : Type} : Option α → Option α → Option α
  | some x, _ => some x
  | none, b => b

/-- Replace the first element satisfying `p` (an ORM mutation of the row found
by `.first()`); every other element is untouched. -/
def updateFirst {α : Type} (p : α → Bool) (f : α → α) : List α → List α
  | [] => []
  | x :: xs => if p x then f x :: xs else x :: updateFirst p f xs

/-- A `Numeric(20,7)` Decimal value, held exactly in stroops (10⁻⁷ units). -/
abbrev Amount : Type := Int

/-! ## Data model (`app/db/models.py`) -/

/-- The account `meta_data` JSONB payload: exactly the keys written by
`_upsert_account` and `_get_or_create_account`. -/
structure AccountMeta where
  sequence : Option String := none
  subentryCount : Option Nat := none
  numSponsoring : Nat := 0
  numSponsored : Nat := 0
  lastModifiedLedger : Option Nat := none
  rawId : Option String := none
  rawPagingToken : Option Nat := none
  discoveredVia : Option String := none
deriving Repr, DecidableEq

/-- A row of `accounts`. -/
structure AccountRow where
  id : Nat
  address : String
  firstSeen : Nat
  lastSeen : Nat
  label : Option String := none
  riskScore : ℚ
  metaData : AccountMeta
deriving Repr, DecidableEq

/-- A row of `assets` (`meta_data` is not read by any modelled code path). -/
structure AssetRow where
  id : Nat
  assetCode : Option String
  assetIssuer : Option String
  assetType : Option String
deriving Repr, DecidableEq

/-- A row of `transactions`. -/
structure TxRow where
  id : Nat
  txHash : String
  ledger : Option Nat
  createdAt : Nat
  sourceAccountId : Option Nat
  feeCharged : Int
  operationCount : Nat
  memo : Option String
  successful : Bool
deriving Repr, DecidableEq

/-- A row of `operations` (the `raw` JSONB copy is not read back by any
modelled code path and is omitted). -/
structure OpRow where
  id : Nat
  opId : String
  txId : Nat
  type : Option String
  fromAccountId : Option Nat
  toAccountId : Option Nat
  assetId : Option Nat
  amount : Option Amount
  createdAt : Nat
deriving Repr, DecidableEq

/-- A row of `counterparty_edges`; unique constraint `uq_counterparty_edge`
on `(from_account_id, to_account_id, asset_id)` with `asset_id` nullable. -/
structure EdgeRow where
  id : Nat
  fromAccountId : Nat
  toAccountId : Nat
  assetId : Option Nat
  txCount : Nat
  totalAmount : Amount
  lastSeen : Nat
deriving Repr, DecidableEq

/-- A Horizon paging cursor: the literal string `"now"` or a numeric token. -/
inductive PagingToken where
  | now
  | tok (n : Nat)
deriving Repr, DecidableEq

/-- A row of `ingestion_state` (one checkpoint per stream). -/
structure StreamState where
  streamName : String
  lastPagingToken : PagingToken
  lastLedger : Option Nat
  updatedAt : Option Nat
  errorCount : Nat
  lastError : Option String
deriving Repr, DecidableEq

/-- A row of `watchlist_members`. -/
structure WatchlistMemberRow where
  watchlistId : Nat
  accountId : Nat
deriving Repr, DecidableEq

/-- The evidence payload fields written by the large-transfer rule and read
back by the dedup key builder (other rules' discriminants included). -/
structure Evidence where
  accountAddress : Option String := none
  amount : Option Amount := none
  threshold : Option Amount := none
  assetCode : Option String := none
  transactionHash : Option String := none
  operationId : Option String := none
  operationType : Option String := none
  toAccount : Option Nat := none
  timestamp : Option Nat := none
  counterpartyAccount : Option String := none
  windowStart : Option String := none
  concentrationPercent : Option String := none
deriving Repr, DecidableEq

/-- The dedup key is `sha256('|'.join(parts))[:16]`; the hash is a
deterministic function of the part list, so the key is modelled by the part
list itself. -/
abbrev DedupKey : Type := List String

/-- A row of `alerts`; the payload holds the evidence plus its dedup key. -/
structure AlertRow where
  id : Nat
  accountId : Option Nat
  assetId : Option Nat
  alertType : String
  severity : String
  payloadDedupKey : DedupKey
  payloadEvidence : Evidence
  createdAt : Nat
deriving Repr, DecidableEq

/-- A row of `flags`; the evidence holds its dedup key. -/
structure FlagRow where
  id : Nat
  accountId : Option Nat
  flagType : String
  severity : String
  reason : String
  evidenceDedupKey : DedupKey
  evidence : Evidence
  createdAt : Nat
deriving Repr, DecidableEq

/-- The whole transactional store shared by the API and the worker. -/
structure DB where
  accounts : List AccountRow := []
  assets : List AssetRow := []
  txs : List TxRow := []
  ops : List OpRow := []
  edges : List EdgeRow := []
  ingestionStates : List StreamState := []
  watchlistMembers : List WatchlistMemberRow := []
  alerts : List AlertRow := []
  flags : List FlagRow := []
  nextId : Nat := 1
deriving Repr, DecidableEq

/-! ## Raw Horizon records (the keys each ingestion path reads) -/

/-- Raw account record fields read by `_upsert_account`. -/
structure AccountData where
  sequence : Option String := none
  subentryCount : Option Nat := none
  numSponsoring : Option Nat := none
  numSponsored : Option Nat := none
  lastModifiedLedger : Option Nat := none
  id : Option String := none
  pagingToken : Option Nat := none
deriving Repr, DecidableEq

/-- Raw transaction-detail fields read by `_ensure_transaction` from
`fetch_transaction_detail`. -/
structure TxDetail where
  sourceAccount : Option String := none
  createdAt : Option Nat := none
  ledger : Option Nat := none
  feeCharged : Option Int := none
  operationCount : Option Nat := none
  memo : Option String := none
  successful : Option Bool := none
deriving Repr, DecidableEq

/-- Raw transaction-page record fields read by `ingest_latest_transactions`
and `_upsert_transaction_record`.  `procFail` is the failure oracle: `true`
means an unexpected internal error is raised while this record is being
processed. -/
structure TxRecord where
  hash : Option String := none
  pagingToken : Option Nat := none
  ledger : Option Nat := none
  sourceAccount : Option String := none
  createdAt : Option Nat := none
  feeCharged : Option Int := none
  operationCount : Option Nat := none
  memo : Option String := none
  successful : Option Bool := none
  procFail : Bool := false
deriving Repr, DecidableEq

/-- Raw operation-page record fields read by `ingest_operations_stream` and
`_upsert_operation` (`fromAddress`/`toAddress` model the `from`/`to` keys).
`detailFetch` is the oracle for `fetch_transaction_detail` if the parent
transaction has to be pulled in; `procFail` as in `TxRecord`. -/
structure OpRecord where
  id : Option String := none
  pagingToken : Option Nat := none
  ledger : Option Nat := none
  transactionHash : Option String := none
  type : Option String := none
  fromAddress : Option String := none
  toAddress : Option String := none
  assetType : Option String := none
  assetCode : Option String := none
  assetIssuer : Option String := none
  amount : Option Amount := none
  startingBalance : Option Amount := none
  funder : Option String := none
  account : Option String := none
  createdAt : Option Nat := none
  detailFetch : Except Unit TxDetail := Except.error ()
  procFail : Bool := false
deriving Repr

/-! ## Entity upsert layer (`ingestion_service.py`) -/

/-- `_upsert_account`, update branch: `{**(account.meta_data or {}), ...}`
overwrites exactly the keys it lists; other keys survive. -/
def mergeAccountMeta (old : AccountMeta) (d : AccountData) : AccountMeta :=
  { old with
    sequence := d.sequence
    subentryCount := d.subentryCount
    numSponsoring := d.numSponsoring.getD 0
    numSponsored := d.numSponsored.getD 0
    lastModifiedLedger := d.lastModifiedLedger
    rawId := d.id
    rawPagingToken := d.pagingToken }

/-- `_upsert_account`, insert branch metadata. -/
def newAccountMeta (d : AccountData) : AccountMeta :=
  { sequence := d.sequence
    subentryCount := d.subentryCount
    numSponsoring := d.numSponsoring.getD 0
    numSponsored := d.numSponsored.getD 0
    lastModifiedLedger := d.lastModifiedLedger
    rawId := d.id
    rawPagingToken := d.pagingToken
    discoveredVia := none }

/-- `IngestionService._upsert_account`: update `last_seen` and `meta_data`
of an existing row, or insert a fresh row with `risk_score = 0`. -/
def upsert_account (db : DB) (address : String) (d : AccountData) (now : Nat) :
    DB × AccountRow :=
  match db.accounts.find? (fun a => a.address == address) with
  | some a =>
      let a' : AccountRow :=
        { a with lastSeen := now, metaData := mergeAccountMeta a.metaData d }
      ({ db with accounts :=
          updateFirst (fun x => x.address == address) (fun _ => a') db.accounts },
       a')
  | none =>
      let a : AccountRow :=
        { id := db.nextId, address := address, firstSeen := now, lastSeen := now,
          label := none, riskScore := 0, metaData := newAccountMeta d }
      ({ db with accounts := db.accounts ++ [a], nextId := db.nextId + 1 }, a)

/-- `IngestionService._get_or_create_account`: fetch by address or insert a
minimal row (`meta_data = {"discovered_via": "operation"}`). -/
def get_or_create_account (db : DB) (address : String) (now : Nat) :
    DB × AccountRow :=
  match db.accounts.find? (fun a => a.address == address) with
  | some a => (db, a)
  | none =>
      let a : AccountRow :=
        { id := db.nextId, address := address, firstSeen := now, lastSeen := now,
          label := none, riskScore := 0,
          metaData := { discoveredVia := some "operation" } }
      ({ db with accounts := db.accounts ++ [a], nextId := db.nextId + 1 }, a)

/-- `IngestionService._get_or_create_asset`: fetch by `(asset_code,
asset_issuer)` (SQLAlchemy renders `== None` as `IS NULL`, so option equality
is the right match) or insert. -/
def get_or_create_asset (db : DB) (code issuer ty : Option String) :
    DB × AssetRow :=
  match db.assets.find? (fun a => a.assetCode == code && a.assetIssuer == issuer) with
  | some a => (db, a)
  | none =>
      let a : AssetRow :=
        { id := db.nextId, assetCode := code, assetIssuer := issuer, assetType := ty }
      ({ db with assets := db.assets ++ [a], nextId := db.nextId + 1 }, a)

/-- `IngestionService._upsert_counterparty_edge`: `INSERT .. ON CONFLICT
(from_account_id, to_account_id, asset_id) DO UPDATE`.  The arbiter is the
unique constraint `uq_counterparty_edge`; PostgreSQL unique constraints treat
NULLs as distinct, so a row whose `asset_id` is NULL never conflicts with an
existing row — the update branch can only fire when both sides carry the same
non-null `asset_id`. -/
def upsert_counterparty_edge (db : DB) (fromId toId : Nat) (assetId : Option Nat)
    (amount : Amount) (now : Nat) : DB :=
  let conflicts : EdgeRow → Bool := fun e =>
    e.fromAccountId == fromId && e.toAccountId == toId &&
      match e.assetId, assetId with
      | some a, some b => a == b
      | _, _ => false
  let accumulate : EdgeRow → EdgeRow := fun e =>
    { e with txCount := e.txCount + 1, totalAmount := e.totalAmount + amount,
             lastSeen := now }
  if (db.edges.find? conflicts).isSome then
    { db with edges := updateFirst conflicts accumulate db.edges }
  else
    { db with
      edges := db.edges ++
        [{ id := db.nextId, fromAccountId := fromId, toAccountId := toId,
           assetId := assetId, txCount := 1, totalAmount := amount,
           lastSeen := now }],
      nextId := db.nextId + 1 }

/-- `IngestionService._upsert_transaction_record`: `INSERT .. ON CONFLICT DO
NOTHING` keyed by `tx_hash`; `created` is `rowcount == 1`.  Resolves or
creates the source account first. -/
def upsert_transaction_record (db : DB) (r : TxRecord) (now : Nat) :
    DB × Bool × Nat :=
  match truthyStr r.hash with
  | none => (db, false, 0)
  | some h =>
      let step : DB × Option Nat :=
        match truthyStr r.sourceAccount with
        | some addr =>
            let (db, acc) := get_or_create_account db addr now
            (db, some acc.id)
        | none => (db, none)
      let db := step.1
      let srcId := step.2
      let createdAt := r.createdAt.getD now
      if db.txs.any (fun t => t.txHash == h) then (db, false, 0)
      else
        ({ db with
            txs := db.txs ++
              [{ id := db.nextId, txHash := h, ledger := r.ledger,
                 createdAt := createdAt, sourceAccountId := srcId,
                 feeCharged := r.feeCharged.getD 0,
                 operationCount := r.operationCount.getD 0,
                 memo := r.memo, successful := r.successful.getD true }],
            nextId := db.nextId + 1 },
         true, 0)

/-- `IngestionService._ensure_transaction`: return the transaction if known;
otherwise fetch its detail from Horizon — a fetch failure is caught and
logged, and the record is skipped (`(None, False)`) — then insert it with
`ON CONFLICT DO NOTHING` and re-query. -/
def ensure_transaction (db : DB) (txHash : Option String)
    (detailFetch : Except Unit TxDetail) (now : Nat) :
    DB × Option TxRow × Bool :=
  match truthyStr txHash with
  | none => (db, none, false)
  | some h =>
      match db.txs.find? (fun t => t.txHash == h) with
      | some t => (db, some t, false)
      | none =>
          match detailFetch with
          | Except.error _ => (db, none, false)
          | Except.ok d =>
              let step : DB × Option Nat :=
                match truthyStr d.sourceAccount with
                | some addr =>
                    let (db, acc) := get_or_create_account db addr now
                    (db, some acc.id)
                | none => (db, none)
              let db := step.1
              let srcId := step.2
              let createdAt := d.createdAt.getD now
              let row : TxRow :=
                { id := db.nextId, txHash := h, ledger := d.ledger,
                  createdAt := createdAt, sourceAccountId := srcId,
                  feeCharged := d.feeCharged.getD 0,
                  operationCount := d.operationCount.getD 0,
                  memo := d.memo, successful := d.successful.getD true }
              let db := { db with txs := db.txs ++ [row], nextId := db.nextId + 1 }
              (db, db.txs.find? (fun t => t.txHash == h), true)

/-- The endpoint/asset resolution step of `_upsert_operation` (lines
583-627): for payment-class types resolve both endpoint accounts and the
asset and trigger an edge accumulation when both endpoints are present; for
`create_account` resolve funder and new account without an edge; any other
type keeps null references and a null amount. -/
def resolve_operation_refs (db : DB) (r : OpRecord) (now : Nat) :
    DB × Option Nat × Option Nat × Option Nat × Option Amount :=
  let opType := r.type
  if opType == some "payment" || opType == some "path_payment_strict_send"
      || opType == some "path_payment_strict_receive" then
    let stepF : DB × Option Nat :=
      match truthyStr r.fromAddress with
      | some a =>
          let (db, acc) := get_or_create_account db a now
          (db, some acc.id)
      | none => (db, none)
    let db := stepF.1
    let fromId := stepF.2
    let stepT : DB × Option Nat :=
      match truthyStr r.toAddress with
      | some a =>
          let (db, acc) := get_or_create_account db a now
          (db, some acc.id)
      | none => (db, none)
    let db := stepT.1
    let toId := stepT.2
    let stepA : DB × Option Nat :=
      if r.assetType == some "native" then (db, none)
      else
        let (db, asset) := get_or_create_asset db r.assetCode r.assetIssuer r.assetType
        (db, some asset.id)
    let db := stepA.1
    let assetId := stepA.2
    let amount := r.amount.getD 0
    let db :=
      match fromId, toId with
      | some f, some t => upsert_counterparty_edge db f t assetId amount now
      | _, _ => db
    (db, fromId, toId, assetId, some amount)
  else if opType == some "create_account" then
    let stepF : DB × Option Nat :=
      match truthyStr r.funder with
      | some a =>
          let (db, acc) := get_or_create_account db a now
          (db, some acc.id)
      | none => (db, none)
    let db := stepF.1
    let fromId := stepF.2
    let stepT : DB × Option Nat :=
      match truthyStr r.account with
      | some a =>
          let (db, acc) := get_or_create_account db a now
          (db, some acc.id)
      | none => (db, none)
    let db := stepT.1
    let toId := stepT.2
    (db, fromId, toId, none, some (r.startingBalance.getD 0))
  else (db, none, none, none, none)

/-- `IngestionService._upsert_operation`: resolve endpoints and asset for
payment-class / `create_account` operations (triggering an edge accumulation
for payment-class ones with both endpoints), then insert the operation with
`ON CONFLICT DO NOTHING` keyed by `op_id`. -/
def upsert_operation (db : DB) (tx : TxRow) (r : OpRecord) (now : Nat) :
    DB × Bool :=
  match truthyStr r.id with
  | none => (db, false)
  | some opId =>
      let resolved := resolve_operation_refs db r now
      let db := resolved.1
      let fromId := resolved.2.1
      let toId := resolved.2.2.1
      let assetId := resolved.2.2.2.1
      let amount := resolved.2.2.2.2
      let createdAt := r.createdAt.getD now
      if db.ops.any (fun o => o.opId == opId) then (db, false)
      else
        ({ db with
            ops := db.ops ++
              [{ id := db.nextId, opId := opId, txId := tx.id, type := r.type,
                 fromAccountId := fromId, toAccountId := toId, assetId := assetId,
                 amount := amount, createdAt := createdAt }],
            nextId := db.nextId + 1 },
         true)

/-! ## Checkpoint store and ingestion coordinator -/

/-- `IngestionService._get_ingestion_state`: fetch the stream's checkpoint
row or initialize it at cursor `"now"` (flushed into the open batch). -/
def get_ingestion_state (db : DB) (stream : String) : DB × StreamState :=
  match db.ingestionStates.find? (fun s => s.streamName == stream) with
  | some s => (db, s)
  | none =>
      let s : StreamState :=
        { streamName := stream, lastPagingToken := PagingToken.now,
          lastLedger := none, updatedAt := none, errorCount := 0,
          lastError := none }
      ({ db with ingestionStates := db.ingestionStates ++ [s] }, s)

/-- `IngestionService._update_ingestion_state`: `INSERT .. ON CONFLICT
(stream_name) DO UPDATE` writing cursor, ledger and timestamp; `error_count`
is incremented when a (truthy) `last_error` is supplied and reset to `0`
otherwise. -/
def update_ingestion_state (db : DB) (stream : String) (tok : PagingToken)
    (ledger : Option Nat) (lastError : Option String) (now : Nat) : DB :=
  let isErr := (truthyStr lastError).isSome
  let setState : StreamState → StreamState := fun s =>
    { s with lastPagingToken := tok, lastLedger := ledger, updatedAt := some now,
             errorCount := if isErr then s.errorCount + 1 else 0,
             lastError := lastError }
  match db.ingestionStates.find? (fun s => s.streamName == stream) with
  | some _ =>
      { db with ingestionStates :=
          updateFirst (fun s => s.streamName == stream) setState db.ingestionStates }
  | none =>
      { db with ingestionStates := db.ingestionStates ++
          [{ streamName := stream, lastPagingToken := tok, lastLedger := ledger,
             updatedAt := some now, errorCount := if isErr then 1 else 0,
             lastError := lastError }] }

/-- The one failure kind a cycle can abort with in this model: an unexpected
internal error raised while processing a record (oracle `procFail`). -/
inductive IngestErr where
  | internal
deriving Repr, DecidableEq

/-- The record loop of `ingest_latest_transactions` (lines 130-137): track
the latest truthy paging token / ledger, then upsert each record.  A record
whose processing raises propagates the exception out of the loop. -/
def txStreamLoop (db : DB) (recs : List TxRecord) (now : Nat) (txC opC : Nat)
    (lastTok lastLed : Option Nat) :
    Except IngestErr (DB × Nat × Nat × Option Nat × Option Nat) :=
  match recs with
  | [] => Except.ok (db, txC, opC, lastTok, lastLed)
  | r :: rest =>
      if r.procFail then Except.error IngestErr.internal
      else
        let lastTok := pyOr r.pagingToken lastTok
        let lastLed := pyOr r.ledger lastLed
        let (db, created, ops) := upsert_transaction_record db r now
        txStreamLoop db rest now (if created then txC + 1 else txC) (opC + ops)
          lastTok lastLed

/-- `IngestionService.ingest_latest_transactions`: one
fetch-process-checkpoint cycle over the `transactions_global` stream, the
fetched page given as `page`.  The whole cycle is one batch: on success the
checkpoint is advanced (if any token was seen) and everything commits; on an
exception the session rolls back to the cycle start and the error is
re-raised. -/
def ingest_latest_transactions (db₀ : DB) (page : List TxRecord) (now : Nat) :
    DB × Except IngestErr (Nat × Nat) :=
  let (db, _state) := get_ingestion_state db₀ "transactions_global"
  match txStreamLoop db page now 0 0 none none with
  | Except.ok (db, txC, opC, lastTok, lastLed) =>
      let db :=
        match lastTok with
        | some t =>
            update_ingestion_state db "transactions_global" (PagingToken.tok t)
              lastLed none now
        | none => db
      (db, Except.ok (txC, opC))
  | Except.error e => (db₀, Except.error e)

/-- The record loop of `ingest_operations_stream` (lines 193-210): skip
records without a truthy id, track tokens, pull in the parent transaction on
demand, then upsert the operation. -/
def opsStreamLoop (db : DB) (recs : List OpRecord) (now : Nat) (txC opC : Nat)
    (lastTok lastLed : Option Nat) :
    Except IngestErr (DB × Nat × Nat × Option Nat × Option Nat) :=
  match recs with
  | [] => Except.ok (db, txC, opC, lastTok, lastLed)
  | r :: rest =>
      match truthyStr r.id with
      | none => opsStreamLoop db rest now txC opC lastTok lastLed
      | some _ =>
          if r.procFail then Except.error IngestErr.internal
          else
            let lastTok := pyOr r.pagingToken lastTok
            let lastLed := pyOr r.ledger lastLed
            let (db, txOpt, txCreated) :=
              ensure_transaction db r.transactionHash r.detailFetch now
            let txC := if txCreated then txC + 1 else txC
            match txOpt with
            | none => opsStreamLoop db rest now txC opC lastTok lastLed
            | some tx =>
                let (db, created) := upsert_operation db tx r now
                opsStreamLoop db rest now txC (if created then opC + 1 else opC)
                  lastTok lastLed

/-- `IngestionService.ingest_operations_stream`: the operations-first cycle
over the `operations_global` stream, with the same commit/rollback shape as
the transaction cycle. -/
def ingest_operations_stream (db₀ : DB) (page : List OpRecord) (now : Nat) :
    DB × Except IngestErr (Nat × Nat) :=
  let (db, _state) := get_ingestion_state db₀ "operations_global"
  match opsStreamLoop db page now 0 0 none none with
  | Except.ok (db, txC, opC, lastTok, lastLed) =>
      let db :=
        match lastTok with
        | some t =>
            update_ingestion_state db "operations_global" (PagingToken.tok t)
              lastLed none now
        | none => db
      (db, Except.ok (txC, opC))
  | Except.error e => (db₀, Except.error e)

/-- The stored cursor of a stream, if its checkpoint row exists. -/
def cursorOf (db : DB) (stream : String) : Option PagingToken :=
  (db.ingestionStates.find? (fun s => s.streamName == stream)).map
    (fun s => s.lastPagingToken)

/-! ## Rule engine (`apps/worker/app/rules/engine.py`) -/

/-- A fired or non-fired rule finding (`RuleResult` in `rules/base.py`). -/
structure RuleResult where
  ruleName : String
  fired : Bool
  severity : String
  accountId : Option Nat := none
  assetId : Option Nat := none
  evidence : Evidence := {}
  message : String := ""
  timestamp : Nat := 0
deriving Repr, DecidableEq

/-- `settings.ALERT_DEDUP_WINDOW_HOURS` default. -/
def ALERT_DEDUP_WINDOW_HOURS : Nat := 24

/-- `str(x or '')` for an id column value (row ids are positive, so `or`
only turns `None` into the empty string). -/
def optNatStr : Option Nat → String
  | some n => toString n
  | none => ""

/-- `RuleEngine._create_dedup_key`: the `'|'.join`ed part list that is
hashed — rule name, account id, asset id and the rule-specific
discriminant. -/
def create_dedup_key (res : RuleResult) : DedupKey :=
  let base := [res.ruleName, optNatStr res.accountId, optNatStr res.assetId]
  let extra :=
    if res.ruleName == "large_transfer" then [res.evidence.transactionHash.getD ""]
    else if res.ruleName == "new_counterparty" then
      [res.evidence.counterpartyAccount.getD ""]
    else if res.ruleName == "rapid_outflow" then [res.evidence.windowStart.getD ""]
    else if res.ruleName == "asset_concentration" then
      [res.evidence.concentrationPercent.getD ""]
    else []
  base ++ extra

/-- `RuleEngine._is_duplicate`: an alert or flag of the same rule and
account, created at or after `now` minus the dedup window, with a matching
stored dedup key. -/
def is_duplicate (db : DB) (res : RuleResult) (now : Nat) : Bool :=
  let key := create_dedup_key res
  let cutoff := now - ALERT_DEDUP_WINDOW_HOURS * 3600
  (db.alerts.any (fun a =>
      a.alertType == res.ruleName && a.accountId == res.accountId &&
        decide (cutoff ≤ a.createdAt) && a.payloadDedupKey == key)) ||
  (db.flags.any (fun f =>
      f.flagType == res.ruleName && f.accountId == res.accountId &&
        decide (cutoff ≤ f.createdAt) && f.evidenceDedupKey == key))

/-- The `Alert` row built by `RuleEngine._create_alert`. -/
def mkAlertRow (db : DB) (res : RuleResult) (now : Nat) : AlertRow :=
  { id := db.nextId, accountId := res.accountId, assetId := res.assetId,
    alertType := res.ruleName, severity := res.severity,
    payloadDedupKey := create_dedup_key res, payloadEvidence := res.evidence,
    createdAt := now }

/-- `RuleEngine._create_alert`: persist the result as an `Alert`, its payload
carrying the evidence and dedup key (committed immediately). -/
def create_alert (db : DB) (res : RuleResult) (now : Nat) : DB :=
  { db with
    alerts := db.alerts ++ [mkAlertRow db res now]
    nextId := db.nextId + 1 }

/-- The `severity_scores` table of `RuleEngine._create_flag`
(`dict.get(severity, 0)`). -/
def severity_scores : String → Nat
  | "low" => 10
  | "medium" => 25
  | "high" => 50
  | "critical" => 75
  | _ => 0

/-- The `Flag` row built by `RuleEngine._create_flag`. -/
def mkFlagRow (db : DB) (res : RuleResult) (now : Nat) : FlagRow :=
  { id := db.nextId, accountId := res.accountId, flagType := res.ruleName,
    severity := res.severity, reason := res.message,
    evidenceDedupKey := create_dedup_key res, evidence := res.evidence,
    createdAt := now }

/-- `RuleEngine._create_flag`: persist the result as a `Flag` and bump the
target account's risk score to `min(100, risk_score + severity_scores)`. -/
def create_flag (db : DB) (res : RuleResult) (now : Nat) : DB :=
  let db :=
    { db with
      flags := db.flags ++ [mkFlagRow db res now]
      nextId := db.nextId + 1 }
  let bump : AccountRow → AccountRow := fun a =>
    { a with riskScore := min 100 (a.riskScore + (severity_scores res.severity : ℚ)) }
  match res.accountId with
  | none => db
  | some i =>
      match db.accounts.find? (fun a => a.id == i) with
      | none => db
      | some _ =>
          { db with accounts := updateFirst (fun a => a.id == i) bump db.accounts }

/-- What `RuleEngine.run` did with one fired result. -/
inductive ProcessOutcome where
  | notFired
  | duplicateSkipped
  | dryRunLogged
  | alertCreated
  | flagCreated
deriving Repr, DecidableEq

/-- The alert-class rules of `RuleEngine.run`; every other rule becomes a
flag. -/
def alertClassRules : List String :=
  ["large_transfer", "new_counterparty", "rapid_outflow", "asset_concentration"]

/-- The per-result body of `RuleEngine.run`'s materialization loop:
skip non-fired results, suppress duplicates, honour dry-run, otherwise
persist an alert or flag. -/
def process_result (db : DB) (res : RuleResult) (now : Nat) (dryRun : Bool) :
    DB × ProcessOutcome :=
  if !res.fired then (db, ProcessOutcome.notFired)
  else if is_duplicate db res now then (db, ProcessOutcome.duplicateSkipped)
  else if dryRun then (db, ProcessOutcome.dryRunLogged)
  else if alertClassRules.contains res.ruleName then
    (create_alert db res now, ProcessOutcome.alertCreated)
  else (create_flag db res now, ProcessOutcome.flagCreated)

/-! ## Large Transfer rule (`rules/large_transfer_rule.py`) -/

/-- `settings.RULE_LARGE_TRANSFER_ENABLED` default. -/
def RULE_LARGE_TRANSFER_ENABLED : Bool := true

/-- `settings.RULE_LARGE_TRANSFER_THRESHOLD` default (`10000.0`). -/
def RULE_LARGE_TRANSFER_THRESHOLD : Amount := 100000000000

/-- `settings.RULE_LARGE_TRANSFER_SEVERITY` default. -/
def RULE_LARGE_TRANSFER_SEVERITY : String := "medium"

/-- The watched accounts: `accounts` joined with `watchlist_members`,
deduplicated (`distinct()`). -/
def watchedAccounts (db : DB) : List AccountRow :=
  db.accounts.filter (fun a => db.watchlistMembers.any (fun m => m.accountId == a.id))

/-- The evidence dict built by `LargeTransferRule.evaluate` for one
qualifying operation. -/
def largeTransferEvidence (account : AccountRow) (op : OpRow) (tx : TxRow)
    (asset : Option AssetRow) : Evidence :=
  { accountAddress := some account.address
    amount := op.amount
    threshold := some RULE_LARGE_TRANSFER_THRESHOLD
    assetCode := match asset with
      | some s => s.assetCode
      | none => some "XLM"
    transactionHash := some tx.txHash
    operationId := some op.opId
    operationType := op.type
    toAccount := op.toAccountId
    timestamp := some op.createdAt }

/-- `LargeTransferRule.evaluate`: for each watched account, every operation
joined to a successful transaction with `from_account_id` the account,
`amount >= threshold` and `created_at` within the last hour becomes a fired
result.  The filter has no operation-type condition. -/
def large_transfer_evaluate (db : DB) (now : Nat) : List RuleResult :=
  if !RULE_LARGE_TRANSFER_ENABLED then []
  else
    let threshold := RULE_LARGE_TRANSFER_THRESHOLD
    let cutoff := now - 3600
    (watchedAccounts db).flatMap (fun account =>
      let largeOps : List (OpRow × TxRow × Option AssetRow) :=
        db.ops.filterMap (fun op =>
          match db.txs.find? (fun t => t.id == op.txId) with
          | none => none
          | some tx =>
              if op.fromAccountId == some account.id &&
                  (match op.amount with
                   | some amt => decide (threshold ≤ amt)
                   | none => false) &&
                  decide (cutoff ≤ op.createdAt) && tx.successful then
                some (op, tx, op.assetId.bind (fun aid =>
                  db.assets.find? (fun s => s.id == aid)))
              else none)
      largeOps.map (fun e =>
        { ruleName := "large_transfer", fired := true,
          severity := RULE_LARGE_TRANSFER_SEVERITY,
          accountId := some account.id,
          assetId := (e.2.2).map (fun s => s.id),
          evidence := largeTransferEvidence account e.1 e.2.1 e.2.2,
          message := "", timestamp := now }))

/-! ## Source connector (`horizon_client.py`) -/

/-- The Python exception classes relevant to the client's control flow. -/
inductive PyExc where
  | stellarConnectionError
  | badResponseError
  | httpxTimeout
  | httpxConnectError
  | notFoundError
  | badRequestError
  | horizonClientError (msg : String)
  | accountNotFoundError (msg : String)
  | otherError (msg : String)
deriving Repr, DecidableEq

/-- The `retry_if_exception_type` tuple on `fetch_account`:
`(StellarConnectionError, BadResponseError, httpx.TimeoutException,
httpx.ConnectError)`. -/
def fetchAccountRetryExc : PyExc → Bool
  | PyExc.stellarConnectionError => true
  | PyExc.badResponseError => true
  | PyExc.httpxTimeout => true
  | PyExc.httpxConnectError => true
  | _ => false

/-- The `retry_if_exception_type` tuple on `fetch_transactions`,
`fetch_operations` and `fetch_transaction_detail`. -/
def fetchTransactionsRetryExc : PyExc → Bool
  | PyExc.stellarConnectionError => true
  | PyExc.badResponseError => true
  | PyExc.httpxTimeout => true
  | _ => false

/-- The `try/except` body of `fetch_account`: `NotFoundError` becomes
`AccountNotFoundError`, `BadRequestError` becomes `HorizonClientError`, and
the final `except Exception` wraps every other exception — including the
transient ones — into `HorizonClientError`. -/
def fetchAccountBody {α : Type} : Except PyExc α → Except PyExc α
  | Except.ok a => Except.ok a
  | Except.error PyExc.notFoundError =>
      Except.error (PyExc.accountNotFoundError "Account not found on network")
  | Except.error PyExc.badRequestError =>
      Except.error (PyExc.horizonClientError "Bad request")
  | Except.error _ =>
      Except.error (PyExc.horizonClientError "Failed to fetch account")

/-- The `try/except` body of `fetch_transactions`: the sole
`except Exception` wraps every exception into `HorizonClientError`. -/
def fetchTransactionsBody {α : Type} : Except PyExc α → Except PyExc α
  | Except.ok a => Except.ok a
  | Except.error _ =>
      Except.error (PyExc.horizonClientError "Failed to fetch transactions")

/-- `tenacity.wait_exponential(multiplier=1, min=2, max=10)`: the sleep
before retrying after failed attempt number `n` is
`max(min, min(multiplier * 2 ^ n, max))`. -/
def waitExponential (attemptNumber : Nat) : Nat :=
  max 2 (min (2 ^ attemptNumber) 10)

/-- How a call through the `@retry` decorator terminates. -/
inductive RetryOutcome (α : Type) where
  | ok (a : α) (attempts : Nat)
  | raised (e : PyExc) (attempts : Nat)
  | retryError (e : PyExc) (attempts : Nat)
deriving Repr, DecidableEq

/-- The `tenacity` `@retry(stop=stop_after_attempt(maxAttempts),
retry=retry_if_exception_type(retryOn))` loop: run the decorated body on
successive underlying-call outcomes; a raised exception is retried only when
`retryOn` matches it and attempts remain, matched-but-exhausted attempts end
in `RetryError`, and a non-matching exception propagates immediately. -/
def tenacityRetry {α : Type} (retryOn : PyExc → Bool) (maxAttempts : Nat)
    (body : Except PyExc α → Except PyExc α) :
    Nat → List (Except PyExc α) → RetryOutcome α
  | _, [] => RetryOutcome.retryError (PyExc.otherError "no outcome supplied") 0
  | attemptNum, o :: rest =>
      match body o with
      | Except.ok a => RetryOutcome.ok a attemptNum
      | Except.error e =>
          if retryOn e then
            if attemptNum < maxAttempts then
              tenacityRetry retryOn maxAttempts body (attemptNum + 1) rest
            else RetryOutcome.retryError e attemptNum
          else RetryOutcome.raised e attemptNum

/-- `HorizonClient.fetch_account` as deployed: the decorated composition of
the retry policy with the exception-wrapping body.  `outcomes` supplies the
result of each underlying Horizon call, in order. -/
def fetch_account {α : Type} (outcomes : List (Except PyExc α)) : RetryOutcome α :=
  tenacityRetry fetchAccountRetryExc 3 fetchAccountBody 1 outcomes

/-- `HorizonClient.fetch_transactions` as deployed. -/
def fetch_transactions {α : Type} (outcomes : List (Except PyExc α)) :
    RetryOutcome α :=
  tenacityRetry fetchTransactionsRetryExc 3 fetchTransactionsBody 1 outcomes

/-! ## Concrete stores, records and observers used by the theorems below -/

/-- The initial checkpoint row used by the C9 evaluation. -/
def c9State : StreamState :=
  { streamName := "transactions_global", lastPagingToken := PagingToken.tok 5,
    lastLedger := some 1, updatedAt := some 0, errorCount := 0, lastError := none }

/-- The checkpoint row in place before the C1 counterexample cycle. -/
def c1State : StreamState :=
  { streamName := "operations_global", lastPagingToken := PagingToken.tok 5,
    lastLedger := some 1, updatedAt := some 0, errorCount := 0, lastError := none }

/-- First record of the C1 counterexample page: a payment operation whose
parent transaction detail fetch succeeds; it creates two accounts, one
transaction, one operation and one edge. -/
def c1rec1 : OpRecord :=
  { id := some "op1", pagingToken := some 6, ledger := some 2,
    transactionHash := some "h1", type := some "payment",
    fromAddress := some "GA", toAddress := some "GB",
    assetType := some "native", amount := some 100000000,
    createdAt := some 100,
    detailFetch := Except.ok
      { sourceAccount := some "GA", createdAt := some 90, ledger := some 2,
        feeCharged := some 100, operationCount := some 1,
        successful := some true } }

/-- Second record of the C1 counterexample page: its parent-transaction
detail fetch raises (`detailFetch` is an error) while the record is being
processed. -/
def c1rec2 : OpRecord :=
  { id := some "op2", pagingToken := some 7, ledger := some 3,
    transactionHash := some "h2", type := some "payment",
    detailFetch := Except.error () }

/-- The parent transaction row used by the C3 witness. -/
def c3tx : TxRow :=
  { id := 5, txHash := "h3", ledger := some 1, createdAt := 0,
    sourceAccountId := some 1, feeCharged := 100, operationCount := 1,
    memo := none, successful := true }

/-- The checkpoint row of the C2 witness store. -/
def c2state : StreamState :=
  { streamName := "transactions_global", lastPagingToken := PagingToken.tok 5,
    lastLedger := some 1, updatedAt := some 0, errorCount := 0,
    lastError := none }

/-- The C2 witness store. -/
def c2db : DB :=
  { ingestionStates := [c2state], nextId := 1 }

/-- The single in-order page record of the C2 witness. -/
def c2rec : TxRecord :=
  { hash := some "hW", pagingToken := some 6, ledger := some 2 }

/-- The time-independent part of `_is_duplicate`'s alert filter: same rule,
same account, matching stored dedup key. -/
def alertMatches (res : RuleResult) (a : AlertRow) : Bool :=
  a.alertType == res.ruleName && a.accountId == res.accountId &&
    a.payloadDedupKey == create_dedup_key res

/-- The time-independent part of `_is_duplicate`'s flag filter. -/
def flagMatches (res : RuleResult) (f : FlagRow) : Bool :=
  f.flagType == res.ruleName && f.accountId == res.accountId &&
    f.evidenceDedupKey == create_dedup_key res

/-- How many persisted records (alerts plus flags) carry this finding's
rule, account and dedup key. -/
def matchCount (db : DB) (res : RuleResult) : Nat :=
  db.alerts.countP (alertMatches res) + db.flags.countP (flagMatches res)

/-- The fired large-transfer finding of the C5 witness. -/
def c5res : RuleResult :=
  { ruleName := "large_transfer", fired := true, severity := "medium",
    accountId := some 1,
    evidence := { transactionHash := some "habc" } }

/-- The watched account of the C7 stores. -/
def c7watch : AccountRow :=
  { id := 1, address := "GW", firstSeen := 0, lastSeen := 0, riskScore := 0,
    metaData := {} }

/-- The recipient account of the C7 stores. -/
def c7other : AccountRow :=
  { id := 2, address := "GB", firstSeen := 0, lastSeen := 0, riskScore := 0,
    metaData := {} }

/-- The successful parent transaction of the C7 stores. -/
def c7tx : TxRow :=
  { id := 10, txHash := "abc", ledger := some 5, createdAt := 7100,
    sourceAccountId := some 1, feeCharged := 100, operationCount := 1,
    memo := none, successful := true }

/-- The single stored operation of a C7 store: sent by the watched account
within the last hour (created at 7200, evaluated at `now = 7300`), with the
given type and amount (native asset). -/
def c7op (ty : String) (amt : Amount) : OpRow :=
  { id := 20, opId := "op1", txId := 10, type := some ty,
    fromAccountId := some 1, toAccountId := some 2, assetId := none,
    amount := some amt, createdAt := 7200 }

/-- A C7 store: one watched account with one recent outgoing operation of
the given type and amount. -/
def c7db (ty : String) (amt : Amount) : DB :=
  { accounts := [c7watch, c7other], txs := [c7tx], ops := [c7op ty amt],
    watchlistMembers := [{ watchlistId := 1, accountId := 1 }], nextId := 21 }

/-- The single result returned by the rule on the C7 payment store. -/
def c7res : RuleResult :=
  { ruleName := "large_transfer", fired := true,
    severity := RULE_LARGE_TRANSFER_SEVERITY, accountId := some 1,
    assetId := none,
    evidence := largeTransferEvidence c7watch (c7op "payment" 150000000000) c7tx none,
    message := "", timestamp := 7300 }

/-- The pre-existing account row of the C10 witness. -/
def c10acc : AccountRow :=
  { id := 1, address := "GX", firstSeen := 3, lastSeen := 4,
    label := some "exchange", riskScore := 42, metaData := {} }

/-- The risk score stored for account id `i`, when the account exists. -/
def riskOf (db : DB) (i : Nat) : Option ℚ :=
  (db.accounts.find? (fun a => a.id == i)).map (fun a => a.riskScore)

/-- The account and result used by the C6 witness. -/
def c6db : DB :=
  { accounts := [{ id := 1, address := "GW", firstSeen := 0, lastSeen := 0,
                   label := none, riskScore := 0, metaData := {} }],
    nextId := 2 }

/-- The dormant-reactivation flag result of the C6 witness. -/
def c6res : RuleResult :=
  { ruleName := "dormant_reactivation", fired := true, severity := "critical",
    accountId := some 1 }

/-! ## General lemmas about the list primitives -/

theorem find?_updateFirst_self {α : Type} (p : α → Bool) (f : α → α)
    (hp : ∀ x, p x = true → p (f x) = true) :
    ∀ l : List α, (updateFirst p f l).find? p = (l.find? p).map f := by
  intro l
  induction l with
  | nil => simp [updateFirst]
  | cons x xs ih =>
      by_cases hx : p x = true
      · simp [updateFirst, hx, List.find?_cons_of_pos, hp x hx]
      · simp only [Bool.not_eq_true] at hx
        simp [updateFirst, hx, List.find?_cons_of_neg, ih]

theorem find?_updateFirst_other {α : Type} (p q : α → Bool) (f : α → α)
    (hid : ∀ x, p (f x) = p x) (hq : ∀ x, q x = true → p x = false) :
    ∀ l : List α, (updateFirst q f l).find? p = l.find? p := by
  intro l
  induction l with
  | nil => simp [updateFirst]
  | cons x xs ih =>
      by_cases hx : q x = true
      · have h := hq x hx
        have h' : p (f x) = false := (hid x).trans h
        simp [updateFirst, hx, List.find?_cons_of_neg, h, h']
      · simp only [Bool.not_eq_true] at hx
        by_cases hpx : p x = true
        · simp [updateFirst, hx, List.find?_cons_of_pos, hpx]
        · simp only [Bool.not_eq_true] at hpx
          simp [updateFirst, hx, List.find?_cons_of_neg, hpx, ih]

theorem find?_append_single {α : Type} (p : α → Bool) (l : List α) (x : α)
    (h : l.find? p = none) :
    (l ++ [x]).find? p = if p x then some x else none := by
  rw [List.find?_append, h]
  cases hx : p x <;> simp [List.find?, hx]

/-! ## C4: counterparty edge accumulation -/

/-- C4.  The claim says accumulating A→B amount 10 then A→B amount 5 on the
same asset — including the native-asset sentinel — leaves exactly one edge
row for `(A, B, asset)` with `tx_count = 2` and `total_amount = 15`.  This
holds for a non-null asset id (second conjunct), but for the native-asset
sentinel (`asset_id` NULL) the `ON CONFLICT` arbiter — the unique constraint
`uq_counterparty_edge`, under which NULLs are distinct — never fires, so the
code inserts a second row instead of accumulating: two rows, each with
`tx_count = 1`, with `total_amount` 10 and 5 (first conjunct; amounts in
stroops). -/
theorem c4_native_edge_duplicates_instead_of_accumulating :
    ((upsert_counterparty_edge
        (upsert_counterparty_edge { nextId := 1 } 1 2 none 100000000 0)
        1 2 none 50000000 1).edges.map
      (fun e => (e.fromAccountId, e.toAccountId, e.assetId, e.txCount, e.totalAmount)) =
      [(1, 2, none, 1, 100000000), (1, 2, none, 1, 50000000)]) ∧
    ((upsert_counterparty_edge
        (upsert_counterparty_edge { nextId := 1 } 1 2 (some 7) 100000000 0)
        1 2 (some 7) 50000000 1).edges.map
      (fun e => (e.fromAccountId, e.toAccountId, e.assetId, e.txCount, e.totalAmount)) =
      [(1, 2, some 7, 2, 150000000)]) := by
  decide

/-! ## C8: source connector retry policy -/

/-- C8.  The claim says transient failures (connection error, bad response,
timeout) are retried up to 3 attempts with backoff while non-transient ones
surface immediately.  In the code every exception raised inside the method
body is wrapped into `HorizonClientError` before the `tenacity` decorator
sees it, and `HorizonClientError` is not in the `retry_if_exception_type`
tuple — so a transient first failure surfaces immediately after a single
attempt (first two conjuncts; the supplied second outcome, a success, is
never reached, although the repo's own `test_retry_on_connection_error`
expects it to be reached on the third call).  Non-transient failures do
surface immediately (third conjunct). -/
theorem c8_transient_failures_are_not_retried :
    (fetch_account (α := Nat)
        [Except.error PyExc.stellarConnectionError, Except.ok 7, Except.ok 7] =
      RetryOutcome.raised (PyExc.horizonClientError "Failed to fetch account") 1) ∧
    (fetch_transactions (α := Nat)
        [Except.error PyExc.httpxTimeout, Except.ok 7, Except.ok 7] =
      RetryOutcome.raised (PyExc.horizonClientError "Failed to fetch transactions") 1) ∧
    (fetch_account (α := Nat)
        [Except.error PyExc.notFoundError, Except.ok 7, Except.ok 7] =
      RetryOutcome.raised (PyExc.accountNotFoundError "Account not found on network") 1) := by
  decide

/-! ## C9: error recording on failed cycles -/

/-- C9.  The claim says a cycle failing with an unexpected internal error
rolls back fully *and* records the error on the stream's checkpoint row by
incrementing `error_count` and storing `last_error`.  The rollback happens
(first conjunct: the failing cycle returns the store unchanged and re-raises)
but nothing is recorded: the checkpoint row still has `error_count = 0` and
`last_error` NULL (second conjunct) — no failure path ever calls
`_update_ingestion_state` with its `last_error` argument. -/
theorem c9_failed_cycle_rolls_back_but_records_no_error :
    (ingest_latest_transactions { ingestionStates := [c9State], nextId := 1 }
        [{ hash := some "h9", pagingToken := some 6, procFail := true }] 100 =
      ({ ingestionStates := [c9State], nextId := 1 }, Except.error IngestErr.internal)) ∧
    ((ingest_latest_transactions { ingestionStates := [c9State], nextId := 1 }
        [{ hash := some "h9", pagingToken := some 6, procFail := true }] 100).1.ingestionStates.map
      (fun s => (s.errorCount, s.lastError)) = [(0, none)]) := by
  decide

/-! ## C1: rollback on mid-cycle failure -/

theorem txStreamLoop_error_of_procFail (now : Nat) :
    ∀ (recs : List TxRecord), (∃ r ∈ recs, r.procFail = true) →
      ∀ (db : DB) (txC opC : Nat) (lastTok lastLed : Option Nat),
      txStreamLoop db recs now txC opC lastTok lastLed =
        Except.error IngestErr.internal := by
  intro recs
  induction recs with
  | nil => intro h; simp at h
  | cons r rest ih =>
      intro h db txC opC lastTok lastLed
      by_cases hr : r.procFail = true
      · simp [txStreamLoop, hr]
      · obtain ⟨x, hx, hpf⟩ := h
        have hx' : x ∈ rest := by
          rcases List.mem_cons.mp hx with rfl | hx'
          · exact absurd hpf hr
          · exact hx'
        simp only [Bool.not_eq_true] at hr
        simp only [txStreamLoop, hr, Bool.false_eq_true, if_false]
        exact ih ⟨x, hx', hpf⟩ _ _ _ _ _

theorem opsStreamLoop_error_of_procFail (now : Nat) :
    ∀ (recs : List OpRecord),
      (∃ r ∈ recs, (truthyStr r.id).isSome ∧ r.procFail = true) →
      ∀ (db : DB) (txC opC : Nat) (lastTok lastLed : Option Nat),
      opsStreamLoop db recs now txC opC lastTok lastLed =
        Except.error IngestErr.internal := by
  intro recs
  induction recs with
  | nil => intro h; simp at h
  | cons r rest ih =>
      intro h db txC opC lastTok lastLed
      obtain ⟨x, hx, hxid, hpf⟩ := h
      cases hid : truthyStr r.id with
      | none =>
          have hx' : x ∈ rest := by
            rcases List.mem_cons.mp hx with rfl | hx'
            · rw [hid] at hxid; simp at hxid
            · exact hx'
          simp only [opsStreamLoop, hid]
          exact ih ⟨x, hx', hxid, hpf⟩ _ _ _ _ _
      | some v =>
          by_cases hr : r.procFail = true
          · simp [opsStreamLoop, hid, hr]
          · have hx' : x ∈ rest := by
              rcases List.mem_cons.mp hx with rfl | hx'
              · exact absurd hpf hr
              · exact hx'
            have hmem : ∃ r ∈ rest, (truthyStr r.id).isSome ∧ r.procFail = true :=
              ⟨x, hx', hxid, hpf⟩
            simp only [Bool.not_eq_true] at hr
            simp only [opsStreamLoop, hid, hr, Bool.false_eq_true, if_false]
            cases hopt :
                (ensure_transaction db r.transactionHash r.detailFetch now).2.1 with
            | none => simp only [hopt]; exact ih hmem _ _ _ _ _
            | some tx => simp only [hopt]; exact ih hmem _ _ _ _ _

/-- C1 (amended).  A failure that propagates out of a record's processing
aborts the cycle: the session rolls back every entity write of the cycle and
the checkpoint row is untouched (the cycle returns the store exactly as it
found it and re-raises), for both the transaction stream and the operations
stream. -/
theorem c1_amended_uncaught_failure_rolls_back :
    (∀ (db : DB) (page : List TxRecord) (now : Nat),
      (∃ r ∈ page, r.procFail = true) →
      ingest_latest_transactions db page now =
        (db, Except.error IngestErr.internal)) ∧
    (∀ (db : DB) (page : List OpRecord) (now : Nat),
      (∃ r ∈ page, (truthyStr r.id).isSome ∧ r.procFail = true) →
      ingest_operations_stream db page now =
        (db, Except.error IngestErr.internal)) := by
  constructor
  · intro db page now h
    have hloop := txStreamLoop_error_of_procFail now page h
    unfold ingest_latest_transactions
    rcases hg : get_ingestion_state db "transactions_global" with ⟨db1, st⟩
    simp only [hg, hloop]
  · intro db page now h
    have hloop := opsStreamLoop_error_of_procFail now page h
    unfold ingest_operations_stream
    rcases hg : get_ingestion_state db "operations_global" with ⟨db1, st⟩
    simp only [hg, hloop]

/-- Closed instance of `c1_amended_uncaught_failure_rolls_back`: a one-record
page whose record fails with an unexpected error leaves both streams' stores
untouched and re-raises. -/
theorem c1_amended_witness :
    (ingest_latest_transactions { nextId := 1 }
        [{ hash := some "h1", pagingToken := some 6, procFail := true }] 50 =
      ({ nextId := 1 }, Except.error IngestErr.internal)) ∧
    (ingest_operations_stream { nextId := 1 }
        [{ id := some "op1", pagingToken := some 6, procFail := true }] 50 =
      ({ nextId := 1 }, Except.error IngestErr.internal)) := by
  constructor
  · exact c1_amended_uncaught_failure_rolls_back.1 _ _ 50
      ⟨_, List.mem_singleton.mpr rfl, rfl⟩
  · exact c1_amended_uncaught_failure_rolls_back.2 _ _ 50
      ⟨_, List.mem_singleton.mpr rfl, by decide, rfl⟩

/-- C1 (counterexample).  The claim says *any* failure while processing a
record mid-cycle rolls back all entity writes of the cycle and leaves the
checkpoint unchanged.  Here the second record's Horizon transaction-detail
fetch fails mid-cycle, but `_ensure_transaction` catches the exception and
skips the record: the cycle completes normally, the first record's entity
writes commit (two accounts, one transaction, one operation), and the
checkpoint advances from token 5 to token 7 — past the failed record. -/
theorem c1_counterexample_caught_fetch_failure_commits :
    ((ingest_operations_stream { ingestionStates := [c1State], nextId := 1 }
        [c1rec1, c1rec2] 200).2 = Except.ok (1, 1)) ∧
    (cursorOf (ingest_operations_stream { ingestionStates := [c1State], nextId := 1 }
        [c1rec1, c1rec2] 200).1 "operations_global" = some (PagingToken.tok 7)) ∧
    ((ingest_operations_stream { ingestionStates := [c1State], nextId := 1 }
        [c1rec1, c1rec2] 200).1.accounts.map (fun a => a.address) = ["GA", "GB"]) ∧
    ((ingest_operations_stream { ingestionStates := [c1State], nextId := 1 }
        [c1rec1, c1rec2] 200).1.txs.map (fun t => t.txHash) = ["h1"]) ∧
    ((ingest_operations_stream { ingestionStates := [c1State], nextId := 1 }
        [c1rec1, c1rec2] 200).1.ops.map (fun o => o.opId) = ["op1"]) := by
  decide

/-! ## Frame lemmas: which tables each write helper leaves untouched -/

theorem get_or_create_account_txs (db : DB) (a : String) (now : Nat) :
    (get_or_create_account db a now).1.txs = db.txs := by
  unfold get_or_create_account
  cases db.accounts.find? (fun x => x.address == a) <;> rfl

theorem get_or_create_account_ops (db : DB) (a : String) (now : Nat) :
    (get_or_create_account db a now).1.ops = db.ops := by
  unfold get_or_create_account
  cases db.accounts.find? (fun x => x.address == a) <;> rfl

theorem get_or_create_account_states (db : DB) (a : String) (now : Nat) :
    (get_or_create_account db a now).1.ingestionStates = db.ingestionStates := by
  unfold get_or_create_account
  cases db.accounts.find? (fun x => x.address == a) <;> rfl

theorem get_or_create_asset_ops (db : DB) (c i t : Option String) :
    (get_or_create_asset db c i t).1.ops = db.ops := by
  unfold get_or_create_asset
  cases db.assets.find? (fun a => a.assetCode == c && a.assetIssuer == i) <;> rfl

theorem get_or_create_asset_states (db : DB) (c i t : Option String) :
    (get_or_create_asset db c i t).1.ingestionStates = db.ingestionStates := by
  unfold get_or_create_asset
  cases db.assets.find? (fun a => a.assetCode == c && a.assetIssuer == i) <;> rfl

theorem upsert_counterparty_edge_ops (db : DB) (f t : Nat) (aid : Option Nat)
    (amt : Amount) (now : Nat) :
    (upsert_counterparty_edge db f t aid amt now).ops = db.ops := by
  unfold upsert_counterparty_edge
  dsimp only
  split <;> rfl

theorem upsert_counterparty_edge_states (db : DB) (f t : Nat) (aid : Option Nat)
    (amt : Amount) (now : Nat) :
    (upsert_counterparty_edge db f t aid amt now).ingestionStates =
      db.ingestionStates := by
  unfold upsert_counterparty_edge
  dsimp only
  split <;> rfl

theorem resolve_operation_refs_ops (db : DB) (r : OpRecord) (now : Nat) :
    (resolve_operation_refs db r now).1.ops = db.ops := by
  unfold resolve_operation_refs
  dsimp only
  repeat' split
  all_goals
    first
    | rfl
    | simp [get_or_create_account_ops, get_or_create_asset_ops,
        upsert_counterparty_edge_ops]

theorem resolve_operation_refs_states (db : DB) (r : OpRecord) (now : Nat) :
    (resolve_operation_refs db r now).1.ingestionStates = db.ingestionStates := by
  unfold resolve_operation_refs
  dsimp only
  repeat' split
  all_goals
    first
    | rfl
    | simp [get_or_create_account_states, get_or_create_asset_states,
        upsert_counterparty_edge_states]

theorem upsert_transaction_record_states (db : DB) (r : TxRecord) (now : Nat) :
    (upsert_transaction_record db r now).1.ingestionStates = db.ingestionStates := by
  unfold upsert_transaction_record
  dsimp only
  repeat' split
  all_goals first | rfl | simp [get_or_create_account_states]

theorem ensure_transaction_states (db : DB) (h : Option String)
    (detail : Except Unit TxDetail) (now : Nat) :
    (ensure_transaction db h detail now).1.ingestionStates = db.ingestionStates := by
  unfold ensure_transaction
  dsimp only
  repeat' split
  all_goals first | rfl | simp [get_or_create_account_states]

theorem upsert_operation_states (db : DB) (tx : TxRow) (r : OpRecord) (now : Nat) :
    (upsert_operation db tx r now).1.ingestionStates = db.ingestionStates := by
  unfold upsert_operation
  dsimp only
  repeat' split
  all_goals first | rfl | simp [resolve_operation_refs_states]

/-! ## C3: duplicate ingestion is a conflict-free no-op -/

theorem upsert_transaction_record_dup (db : DB) (r : TxRecord) (now : Nat)
    (h : String) (hh : truthyStr r.hash = some h)
    (hdup : db.txs.any (fun t => t.txHash == h) = true) :
    (upsert_transaction_record db r now).2.1 = false ∧
    (upsert_transaction_record db r now).1.txs = db.txs := by
  unfold upsert_transaction_record
  simp only [hh]
  cases hsa : truthyStr r.sourceAccount <;>
    simp [hsa, get_or_create_account_txs, hdup]

theorem upsert_transaction_record_new (db : DB) (r : TxRecord) (now : Nat)
    (h : String) (hh : truthyStr r.hash = some h)
    (habs : db.txs.any (fun t => t.txHash == h) = false) :
    (upsert_transaction_record db r now).2.1 = true ∧
    ∃ row : TxRow, row.txHash = h ∧
      (upsert_transaction_record db r now).1.txs = db.txs ++ [row] := by
  unfold upsert_transaction_record
  simp only [hh]
  cases hsa : truthyStr r.sourceAccount <;>
    simp [hsa, get_or_create_account_txs, habs]

theorem upsert_operation_dup (db : DB) (tx : TxRow) (r : OpRecord) (now : Nat)
    (oid : String) (ho : truthyStr r.id = some oid)
    (hdup : db.ops.any (fun o => o.opId == oid) = true) :
    (upsert_operation db tx r now).2 = false ∧
    (upsert_operation db tx r now).1.ops = db.ops := by
  unfold upsert_operation
  simp only [ho]
  simp [resolve_operation_refs_ops, hdup]

theorem upsert_operation_new (db : DB) (tx : TxRow) (r : OpRecord) (now : Nat)
    (oid : String) (ho : truthyStr r.id = some oid)
    (habs : db.ops.any (fun o => o.opId == oid) = false) :
    (upsert_operation db tx r now).2 = true ∧
    ∃ row : OpRow, row.opId = oid ∧
      (upsert_operation db tx r now).1.ops = db.ops ++ [row] := by
  unfold upsert_operation
  simp only [ho]
  simp [resolve_operation_refs_ops, habs]

/-- C3.  Ingesting the same raw record twice stores exactly one row for it
and the second ingestion reports `created = False` without raising: for a
transaction record with (truthy) hash `h` over a store with no row for `h`,
the first `_upsert_transaction_record` creates (`True`) and the second is a
no-op (`False`) leaving exactly one `transactions` row with hash `h`; the
analogous statement holds for `_upsert_operation` keyed by the operation
id. -/
theorem c3_duplicate_ingestion_is_noop
    (db dbo : DB) (r : TxRecord) (tx : TxRow) (ro : OpRecord)
    (now₁ now₂ : Nat) (h oid : String)
    (hh : truthyStr r.hash = some h)
    (h0 : db.txs.countP (fun t => t.txHash == h) = 0)
    (ho : truthyStr ro.id = some oid)
    (ho0 : dbo.ops.countP (fun o => o.opId == oid) = 0) :
    ((upsert_transaction_record db r now₁).2.1 = true ∧
     (upsert_transaction_record (upsert_transaction_record db r now₁).1 r now₂).2.1 =
       false ∧
     (upsert_transaction_record (upsert_transaction_record db r now₁).1 r now₂).1.txs.countP
       (fun t => t.txHash == h) = 1) ∧
    ((upsert_operation dbo tx ro now₁).2 = true ∧
     (upsert_operation (upsert_operation dbo tx ro now₁).1 tx ro now₂).2 = false ∧
     (upsert_operation (upsert_operation dbo tx ro now₁).1 tx ro now₂).1.ops.countP
       (fun o => o.opId == oid) = 1) := by
  constructor
  · have habs : db.txs.any (fun t => t.txHash == h) = false :=
      List.any_eq_false.mpr (List.countP_eq_zero.mp h0)
    obtain ⟨hc₁, row, hrow, htxs⟩ := upsert_transaction_record_new db r now₁ h hh habs
    have hdup : (upsert_transaction_record db r now₁).1.txs.any
        (fun t => t.txHash == h) = true := by
      rw [htxs, List.any_append]
      simp [hrow]
    obtain ⟨hc₂, htxs₂⟩ :=
      upsert_transaction_record_dup (upsert_transaction_record db r now₁).1 r now₂ h hh hdup
    refine ⟨hc₁, hc₂, ?_⟩
    rw [htxs₂, htxs, List.countP_append, h0]
    simp [hrow]
  · have habs : dbo.ops.any (fun o => o.opId == oid) = false :=
      List.any_eq_false.mpr (List.countP_eq_zero.mp ho0)
    obtain ⟨hc₁, row, hrow, hops⟩ := upsert_operation_new dbo tx ro now₁ oid ho habs
    have hdup : (upsert_operation dbo tx ro now₁).1.ops.any
        (fun o => o.opId == oid) = true := by
      rw [hops, List.any_append]
      simp [hrow]
    obtain ⟨hc₂, hops₂⟩ :=
      upsert_operation_dup (upsert_operation dbo tx ro now₁).1 tx ro now₂ oid ho hdup
    refine ⟨hc₁, hc₂, ?_⟩
    rw [hops₂, hops, List.countP_append, ho0]
    simp [hrow]

/-- Closed instance of the C3 theorem: a payment operation record and a
transaction record each ingested twice into an empty store. -/
theorem c3_witness :
    ((upsert_transaction_record { nextId := 1 }
        { hash := some "h3", sourceAccount := some "GS" } 10).2.1 = true ∧
     (upsert_transaction_record
        (upsert_transaction_record { nextId := 1 }
          { hash := some "h3", sourceAccount := some "GS" } 10).1
        { hash := some "h3", sourceAccount := some "GS" } 20).2.1 = false ∧
     (upsert_transaction_record
        (upsert_transaction_record { nextId := 1 }
          { hash := some "h3", sourceAccount := some "GS" } 10).1
        { hash := some "h3", sourceAccount := some "GS" } 20).1.txs.countP
       (fun t => t.txHash == "h3") = 1) ∧
    ((upsert_operation { nextId := 1 } c3tx
        { id := some "op3", type := some "payment", fromAddress := some "GA",
          toAddress := some "GB", assetType := some "native",
          amount := some 100000000 } 10).2 = true ∧
     (upsert_operation
        (upsert_operation { nextId := 1 } c3tx
          { id := some "op3", type := some "payment", fromAddress := some "GA",
            toAddress := some "GB", assetType := some "native",
            amount := some 100000000 } 10).1 c3tx
        { id := some "op3", type := some "payment", fromAddress := some "GA",
          toAddress := some "GB", assetType := some "native",
          amount := some 100000000 } 20).2 = false ∧
     (upsert_operation
        (upsert_operation { nextId := 1 } c3tx
          { id := some "op3", type := some "payment", fromAddress := some "GA",
            toAddress := some "GB", assetType := some "native",
            amount := some 100000000 } 10).1 c3tx
        { id := some "op3", type := some "payment", fromAddress := some "GA",
          toAddress := some "GB", assetType := some "native",
          amount := some 100000000 } 20).1.ops.countP
       (fun o => o.opId == "op3") = 1) :=
  c3_duplicate_ingestion_is_noop { nextId := 1 } { nextId := 1 } _ c3tx _ 10 20
    "h3" "op3" rfl rfl rfl rfl

/-! ## C2: checkpoint monotonicity and empty pages -/

theorem get_ingestion_state_found (db : DB) (stream : String) (s : StreamState)
    (h : db.ingestionStates.find? (fun x => x.streamName == stream) = some s) :
    get_ingestion_state db stream = (db, s) := by
  unfold get_ingestion_state
  rw [h]

theorem cursorOf_update_ingestion_state (db : DB) (stream : String)
    (tok : PagingToken) (ledger : Option Nat) (lastError : Option String)
    (now : Nat) :
    cursorOf (update_ingestion_state db stream tok ledger lastError now) stream =
      some tok := by
  unfold update_ingestion_state cursorOf
  dsimp only
  cases hfind : db.ingestionStates.find? (fun s => s.streamName == stream) with
  | some s =>
      simp only [hfind]
      rw [find?_updateFirst_self (fun s => s.streamName == stream)
          (fun s =>
            { s with
              lastPagingToken := tok, lastLedger := ledger, updatedAt := some now,
              errorCount :=
                if (truthyStr lastError).isSome then s.errorCount + 1 else 0,
              lastError := lastError })
          (fun x hx => hx) db.ingestionStates, hfind]
      rfl
  | none =>
      simp only [hfind]
      rw [find?_append_single _ _ _ hfind]
      simp

theorem txStreamLoop_states (now : Nat) :
    ∀ (recs : List TxRecord) (db : DB) (txC opC : Nat)
      (lastTok lastLed : Option Nat) (db' : DB) (a b : Nat) (lt ll : Option Nat),
      txStreamLoop db recs now txC opC lastTok lastLed =
        Except.ok (db', a, b, lt, ll) →
      db'.ingestionStates = db.ingestionStates := by
  intro recs
  induction recs with
  | nil =>
      intro db txC opC lastTok lastLed db' a b lt ll hok
      simp only [txStreamLoop, Except.ok.injEq, Prod.mk.injEq] at hok
      rw [← hok.1]
  | cons r rest ih =>
      intro db txC opC lastTok lastLed db' a b lt ll hok
      by_cases hr : r.procFail = true
      · simp [txStreamLoop, hr] at hok
      · simp only [Bool.not_eq_true] at hr
        simp only [txStreamLoop, hr, Bool.false_eq_true, if_false] at hok
        have hrest := ih _ _ _ _ _ _ _ _ _ _ hok
        rw [hrest, upsert_transaction_record_states]

theorem txStreamLoop_token (now : Nat) :
    ∀ (recs : List TxRecord) (db : DB) (txC opC : Nat)
      (lastTok lastLed : Option Nat) (db' : DB) (a b : Nat) (t : Nat)
      (ll : Option Nat),
      txStreamLoop db recs now txC opC lastTok lastLed =
        Except.ok (db', a, b, some t, ll) →
      lastTok = some t ∨ ∃ r ∈ recs, r.pagingToken = some t := by
  intro recs
  induction recs with
  | nil =>
      intro db txC opC lastTok lastLed db' a b t ll hok
      simp only [txStreamLoop, Except.ok.injEq, Prod.mk.injEq] at hok
      exact Or.inl hok.2.2.2.1
  | cons r rest ih =>
      intro db txC opC lastTok lastLed db' a b t ll hok
      by_cases hr : r.procFail = true
      · simp [txStreamLoop, hr] at hok
      · simp only [Bool.not_eq_true] at hr
        simp only [txStreamLoop, hr, Bool.false_eq_true, if_false] at hok
        rcases ih _ _ _ _ _ _ _ _ _ _ hok with hacc | ⟨x, hx, hp⟩
        · cases hp : r.pagingToken with
          | none => rw [hp] at hacc; exact Or.inl hacc
          | some v =>
              rw [hp] at hacc
              simp only [pyOr] at hacc
              exact Or.inr ⟨r, List.mem_cons_self r rest, hp.trans hacc⟩
        · exact Or.inr ⟨x, List.mem_cons_of_mem r hx, hp⟩

/-- C2.  Over the transaction stream: (1) for any cycle whose fetched page
is ahead of the stored cursor (every paging token in the page is at least
the cursor — the Horizon contract for an ascending fetch from that cursor),
the cursor stored after the cycle is never behind the cursor before it,
whether the cycle commits or aborts; and (2) a cycle that fetches an empty
page returns the store completely unchanged, in particular the checkpoint
row. -/
theorem c2_checkpoint_monotone_and_empty_page_noop :
    (∀ (db : DB) (page : List TxRecord) (now : Nat),
      (∀ r ∈ page, ∀ t : Nat, r.pagingToken = some t →
        ∀ c : Nat, cursorOf db "transactions_global" = some (PagingToken.tok c) →
          c ≤ t) →
      ∀ (c n : Nat),
        cursorOf db "transactions_global" = some (PagingToken.tok c) →
        cursorOf (ingest_latest_transactions db page now).1 "transactions_global" =
          some (PagingToken.tok n) →
        c ≤ n) ∧
    (∀ (db : DB) (now : Nat),
      (cursorOf db "transactions_global").isSome →
      ingest_latest_transactions db [] now = (db, Except.ok (0, 0))) := by
  constructor
  · intro db page now hpage c n hc hn
    obtain ⟨srow, hfind, hcur⟩ :
        ∃ s, db.ingestionStates.find?
            (fun x => x.streamName == "transactions_global") = some s ∧
          s.lastPagingToken = PagingToken.tok c := by
      unfold cursorOf at hc
      cases hf : db.ingestionStates.find?
          (fun x => x.streamName == "transactions_global") with
      | none => rw [hf] at hc; simp at hc
      | some s =>
          rw [hf] at hc
          exact ⟨s, rfl, Option.some_injective _ hc⟩
    cases hloop : txStreamLoop db page now 0 0 none none with
    | error e =>
        have heq : ingest_latest_transactions db page now = (db, Except.error e) := by
          unfold ingest_latest_transactions
          simp only [get_ingestion_state_found db _ srow hfind, hloop]
        rw [heq] at hn
        rw [hc] at hn
        have := Option.some_injective _ hn
        rw [PagingToken.tok.injEq] at this
        exact this.le
    | ok val =>
        obtain ⟨db1, a, b, lt, ll⟩ := val
        cases hlt : lt with
        | none =>
            subst hlt
            have heq : ingest_latest_transactions db page now =
                (db1, Except.ok (a, b)) := by
              unfold ingest_latest_transactions
              simp only [get_ingestion_state_found db _ srow hfind, hloop]
            rw [heq] at hn
            have hst := txStreamLoop_states now page db 0 0 none none db1 a b none ll hloop
            unfold cursorOf at hn
            rw [hst] at hn
            unfold cursorOf at hc
            rw [hc] at hn
            have := Option.some_injective _ hn
            rw [PagingToken.tok.injEq] at this
            exact this.le
        | some t =>
            subst hlt
            have heq : ingest_latest_transactions db page now =
                (update_ingestion_state db1 "transactions_global"
                  (PagingToken.tok t) ll none now, Except.ok (a, b)) := by
              unfold ingest_latest_transactions
              simp only [get_ingestion_state_found db _ srow hfind, hloop]
            rw [heq] at hn
            rw [cursorOf_update_ingestion_state] at hn
            have hnt : n = t := by
              have h2 := Option.some_injective _ hn
              rw [PagingToken.tok.injEq] at h2
              exact h2.symm
            subst hnt
            rcases txStreamLoop_token now page db 0 0 none none db1 a b n ll hloop with
              habs | ⟨r, hr, hp⟩
            · exact absurd habs (by simp)
            · exact hpage r hr n hp c hc
  · intro db now hsome
    obtain ⟨srow, hfind⟩ :
        ∃ s, db.ingestionStates.find?
            (fun x => x.streamName == "transactions_global") = some s := by
      unfold cursorOf at hsome
      cases hf : db.ingestionStates.find?
          (fun x => x.streamName == "transactions_global") with
      | none => rw [hf] at hsome; simp at hsome
      | some s => exact ⟨s, rfl⟩
    unfold ingest_latest_transactions
    simp only [get_ingestion_state_found db _ srow hfind, txStreamLoop]

/-- Closed instance of the C2 theorem: a one-record in-order page advances
the cursor from token 5 to token 6 (never behind), and an empty page is a
complete no-op. -/
theorem c2_witness :
    (5 : Nat) ≤ 6 ∧
    ingest_latest_transactions c2db [] 77 = (c2db, Except.ok (0, 0)) := by
  constructor
  · refine c2_checkpoint_monotone_and_empty_page_noop.1 c2db [c2rec] 50 ?_ 5 6
      (by decide) (by decide)
    intro r hr t ht c hcur
    have hr' : r = c2rec := by simpa using hr
    subst hr'
    have ht2 : c2rec.pagingToken = some t := ht
    simp only [c2rec] at ht2
    have ht' : t = 6 := (Option.some_injective _ ht2).symm
    have hev : cursorOf c2db "transactions_global" = some (PagingToken.tok 5) := by
      decide
    rw [hev] at hcur
    have hc' : c = 5 := by
      have := Option.some_injective _ hcur
      rw [PagingToken.tok.injEq] at this
      exact this.symm
    subst ht'
    subst hc'
    decide
  · exact c2_checkpoint_monotone_and_empty_page_noop.2 c2db 77 (by decide)

/-! ## C5: alert/flag deduplication window -/

theorem is_duplicate_iff (db : DB) (res : RuleResult) (now : Nat) :
    is_duplicate db res now = true ↔
      (∃ a ∈ db.alerts, alertMatches res a = true ∧
        now - ALERT_DEDUP_WINDOW_HOURS * 3600 ≤ a.createdAt) ∨
      (∃ f ∈ db.flags, flagMatches res f = true ∧
        now - ALERT_DEDUP_WINDOW_HOURS * 3600 ≤ f.createdAt) := by
  unfold is_duplicate alertMatches flagMatches
  rw [Bool.or_eq_true]
  simp only [List.any_eq_true, Bool.and_eq_true, decide_eq_true_eq]
  constructor
  · rintro (⟨a, ha, ⟨⟨h1, h2⟩, h3⟩, h4⟩ | ⟨f, hf, ⟨⟨h1, h2⟩, h3⟩, h4⟩)
    · exact Or.inl ⟨a, ha, ⟨⟨h1, h2⟩, h4⟩, h3⟩
    · exact Or.inr ⟨f, hf, ⟨⟨h1, h2⟩, h4⟩, h3⟩
  · rintro (⟨a, ha, ⟨⟨h1, h2⟩, h4⟩, h3⟩ | ⟨f, hf, ⟨⟨h1, h2⟩, h4⟩, h3⟩)
    · exact Or.inl ⟨a, ha, ⟨⟨h1, h2⟩, h3⟩, h4⟩
    · exact Or.inr ⟨f, hf, ⟨⟨h1, h2⟩, h3⟩, h4⟩

theorem matchCount_zero (db : DB) (res : RuleResult) (h : matchCount db res = 0) :
    (∀ a ∈ db.alerts, ¬alertMatches res a = true) ∧
    (∀ f ∈ db.flags, ¬flagMatches res f = true) := by
  unfold matchCount at h
  obtain ⟨h1, h2⟩ := Nat.add_eq_zero.mp h
  exact ⟨List.countP_eq_zero.mp h1, List.countP_eq_zero.mp h2⟩

theorem is_duplicate_false_of_no_match (db : DB) (res : RuleResult) (now : Nat)
    (h : matchCount db res = 0) : is_duplicate db res now = false := by
  obtain ⟨h1, h2⟩ := matchCount_zero db res h
  rw [Bool.eq_false_iff]
  intro hdup
  rcases (is_duplicate_iff db res now).mp hdup with ⟨a, ha, hm, -⟩ | ⟨f, hf, hm, -⟩
  · exact h1 a ha hm
  · exact h2 f hf hm

theorem alertMatches_mkAlertRow (db : DB) (res : RuleResult) (now : Nat) :
    alertMatches res (mkAlertRow db res now) = true := by
  simp [alertMatches, mkAlertRow]

theorem flagMatches_mkFlagRow (db : DB) (res : RuleResult) (now : Nat) :
    flagMatches res (mkFlagRow db res now) = true := by
  simp [flagMatches, mkFlagRow]

theorem matchCount_create_alert (db : DB) (res : RuleResult) (now : Nat) :
    matchCount (create_alert db res now) res = matchCount db res + 1 := by
  unfold matchCount create_alert
  dsimp only
  rw [List.countP_append]
  simp only [List.countP_cons, List.countP_nil, alertMatches_mkAlertRow, if_true]
  omega

theorem matchCount_create_flag (db : DB) (res : RuleResult) (now : Nat) :
    matchCount (create_flag db res now) res = matchCount db res + 1 := by
  unfold matchCount create_flag
  dsimp only
  repeat' split
  all_goals
    rw [List.countP_append]
    simp only [List.countP_cons, List.countP_nil, flagMatches_mkFlagRow, if_true]
    omega

/-- `create_flag` only appends the flag and touches `accounts`. -/
theorem create_flag_alerts (db : DB) (res : RuleResult) (now : Nat) :
    (create_flag db res now).alerts = db.alerts := by
  unfold create_flag
  dsimp only
  repeat' split
  all_goals rfl

/-- `create_flag`'s flag table is the old one plus the built row. -/
theorem create_flag_flags (db : DB) (res : RuleResult) (now : Nat) :
    (create_flag db res now).flags = db.flags ++ [mkFlagRow db res now] := by
  unfold create_flag
  dsimp only
  repeat' split
  all_goals rfl

/-- C5.  (1) A fired finding with an existing alert or flag of the same rule
and account, with matching dedup key, created within the dedup window
(default 24 hours) is suppressed: the store is returned untouched.  (2) For
a fired finding with no persisted match, processing it at `t₁`, again at
`t₂` with `t₁` inside `t₂`'s dedup window, and again at `t₃` with `t₁`
outside `t₃`'s window, yields exactly one persisted record after the second
processing (which is reported as a skipped duplicate) and a second record
after the third. -/
theorem c5_dedup_window :
    (∀ (db : DB) (res : RuleResult) (now : Nat),
      res.fired = true → is_duplicate db res now = true →
      process_result db res now false = (db, ProcessOutcome.duplicateSkipped)) ∧
    (∀ (db : DB) (res : RuleResult) (t₁ t₂ t₃ : Nat),
      res.fired = true → matchCount db res = 0 →
      t₂ - ALERT_DEDUP_WINDOW_HOURS * 3600 ≤ t₁ →
      t₁ < t₃ - ALERT_DEDUP_WINDOW_HOURS * 3600 →
      matchCount (process_result db res t₁ false).1 res = 1 ∧
      process_result (process_result db res t₁ false).1 res t₂ false =
        ((process_result db res t₁ false).1, ProcessOutcome.duplicateSkipped) ∧
      matchCount
        (process_result
          (process_result
            (process_result db res t₁ false).1 res t₂ false).1 res t₃ false).1
        res = 2) := by
  constructor
  · intro db res now hf hd
    simp [process_result, hf, hd]
  · intro db res t₁ t₂ t₃ hf h0 hw₂ hw₃
    obtain ⟨hnoA, hnoF⟩ := matchCount_zero db res h0
    have hd₁ : is_duplicate db res t₁ = false :=
      is_duplicate_false_of_no_match db res t₁ h0
    by_cases hcls : res.ruleName ∈ alertClassRules
    · have hp₁ : process_result db res t₁ false =
          (create_alert db res t₁, ProcessOutcome.alertCreated) := by
        simp [process_result, hf, hd₁, hcls]
      have hm₁ : matchCount (create_alert db res t₁) res = 1 := by
        rw [matchCount_create_alert, h0]
      have hdup₂ : is_duplicate (create_alert db res t₁) res t₂ = true := by
        refine (is_duplicate_iff _ res t₂).mpr (Or.inl ⟨mkAlertRow db res t₁, ?_, ?_, ?_⟩)
        · exact List.mem_append_right _ (List.mem_singleton.mpr rfl)
        · exact alertMatches_mkAlertRow db res t₁
        · exact hw₂
      have hp₂ : process_result (create_alert db res t₁) res t₂ false =
          (create_alert db res t₁, ProcessOutcome.duplicateSkipped) := by
        simp [process_result, hf, hdup₂]
      have hd₃ : is_duplicate (create_alert db res t₁) res t₃ = false := by
        rw [Bool.eq_false_iff]
        intro hdup
        rcases (is_duplicate_iff _ res t₃).mp hdup with
          ⟨a, ha, hm, htime⟩ | ⟨f, hfmem, hm, -⟩
        · rcases List.mem_append.mp ha with hold | hnew
          · exact hnoA a hold hm
          · rw [List.mem_singleton.mp hnew] at htime
            exact absurd htime (by simpa [mkAlertRow] using Nat.not_le.mpr hw₃)
        · exact hnoF f hfmem hm
      have hp₃ : process_result (create_alert db res t₁) res t₃ false =
          (create_alert (create_alert db res t₁) res t₃,
            ProcessOutcome.alertCreated) := by
        simp [process_result, hf, hd₃, hcls]
      refine ⟨by rw [hp₁]; exact hm₁, by rw [hp₁]; exact hp₂, ?_⟩
      rw [hp₁]
      simp only [hp₂, hp₃]
      rw [matchCount_create_alert, hm₁]
    · have hp₁ : process_result db res t₁ false =
          (create_flag db res t₁, ProcessOutcome.flagCreated) := by
        simp [process_result, hf, hd₁, hcls]
      have hm₁ : matchCount (create_flag db res t₁) res = 1 := by
        rw [matchCount_create_flag, h0]
      have hdup₂ : is_duplicate (create_flag db res t₁) res t₂ = true := by
        refine (is_duplicate_iff _ res t₂).mpr (Or.inr ⟨mkFlagRow db res t₁, ?_, ?_, ?_⟩)
        · rw [create_flag_flags]
          exact List.mem_append_right _ (List.mem_singleton.mpr rfl)
        · exact flagMatches_mkFlagRow db res t₁
        · exact hw₂
      have hp₂ : process_result (create_flag db res t₁) res t₂ false =
          (create_flag db res t₁, ProcessOutcome.duplicateSkipped) := by
        simp [process_result, hf, hdup₂]
      have hd₃ : is_duplicate (create_flag db res t₁) res t₃ = false := by
        rw [Bool.eq_false_iff]
        intro hdup
        rcases (is_duplicate_iff _ res t₃).mp hdup with
          ⟨a, ha, hm, -⟩ | ⟨f, hfmem, hm, htime⟩
        · rw [create_flag_alerts] at ha
          exact hnoA a ha hm
        · rw [create_flag_flags] at hfmem
          rcases List.mem_append.mp hfmem with hold | hnew
          · exact hnoF f hold hm
          · rw [List.mem_singleton.mp hnew] at htime
            exact absurd htime (by simpa [mkFlagRow] using Nat.not_le.mpr hw₃)
      have hp₃ : process_result (create_flag db res t₁) res t₃ false =
          (create_flag (create_flag db res t₁) res t₃,
            ProcessOutcome.flagCreated) := by
        simp [process_result, hf, hd₃, hcls]
      refine ⟨by rw [hp₁]; exact hm₁, by rw [hp₁]; exact hp₂, ?_⟩
      rw [hp₁]
      simp only [hp₂, hp₃]
      rw [matchCount_create_flag, hm₁]

/-- Closed instance of the C5 theorem: the same finding fired at `t₁ = 1000`,
`t₂ = 2000` (within the 24h window of `t₁`) and `t₃ = 100000000` (window
elapsed) produces one record, then a skip, then a second record. -/
theorem c5_witness :
    matchCount (process_result { nextId := 1 } c5res 1000 false).1 c5res = 1 ∧
    process_result (process_result { nextId := 1 } c5res 1000 false).1 c5res 2000 false =
      ((process_result { nextId := 1 } c5res 1000 false).1,
        ProcessOutcome.duplicateSkipped) ∧
    matchCount
      (process_result
        (process_result
          (process_result { nextId := 1 } c5res 1000 false).1 c5res 2000 false).1
        c5res 100000000 false).1 c5res = 2 :=
  c5_dedup_window.2 { nextId := 1 } c5res 1000 2000 100000000 rfl (by decide)
    (by decide) (by decide)

/-! ## C7: the Large Transfer rule -/

/-- C7 (counterexample).  The claim says the rule fires exactly for
payment-class operations, in particular not for other operation types.  The
query of `LargeTransferRule.evaluate` has no operation-type filter: on a
store whose only operation is a `create_account` funding of 15000 (in
stroops) from a watched account, the rule fires once (and no payment-class
operation exists in the store). -/
theorem c7_counterexample_fires_for_create_account :
    ((large_transfer_evaluate (c7db "create_account" 150000000000) 7300).map
      (fun r => (r.fired, r.ruleName, r.evidence.operationType)) =
      [(true, "large_transfer", some "create_account")]) ∧
    ((c7db "create_account" 150000000000).ops.all
      (fun o => !(o.type == some "payment"
        || o.type == some "path_payment_strict_send"
        || o.type == some "path_payment_strict_receive")) = true) := by
  decide

/-- C7 (amended).  Soundness of the rule as implemented: every result it
returns is a fired `large_transfer` finding for an operation sent by a
watched account with a recorded amount at least the threshold, created
within the last hour, on a successful transaction — with no constraint on
the operation type (first conjunct).  With the default threshold 10000, a
watched account that sent amount 15000 within the last hour fires exactly
one result (second conjunct) and amount 9999.9999999 fires none (third
conjunct); amounts in stroops. -/
theorem c7_amended_large_transfer_fires_on_threshold :
    (∀ (db : DB) (now : Nat) (r : RuleResult),
      r ∈ large_transfer_evaluate db now →
      r.fired = true ∧ r.ruleName = "large_transfer" ∧
      ∃ a ∈ watchedAccounts db, ∃ op ∈ db.ops, ∃ tx ∈ db.txs,
        tx.id = op.txId ∧ op.fromAccountId = some a.id ∧
        (∃ amt : Amount, op.amount = some amt ∧
          RULE_LARGE_TRANSFER_THRESHOLD ≤ amt) ∧
        now - 3600 ≤ op.createdAt ∧ tx.successful = true) ∧
    ((large_transfer_evaluate (c7db "payment" 150000000000) 7300).length = 1) ∧
    (large_transfer_evaluate (c7db "payment" 99999999999) 7300 = []) := by
  refine ⟨?_, by decide, by decide⟩
  intro db now r hr
  unfold large_transfer_evaluate at hr
  rw [if_neg (by decide)] at hr
  dsimp only at hr
  rw [List.mem_flatMap] at hr
  obtain ⟨a, ha, hmem⟩ := hr
  rw [List.mem_map] at hmem
  obtain ⟨e, he, hre⟩ := hmem
  rw [List.mem_filterMap] at he
  obtain ⟨op, hop, hfe⟩ := he
  cases hfind : db.txs.find? (fun t => t.id == op.txId) with
  | none =>
      simp only [hfind] at hfe
      exact Option.noConfusion hfe
  | some tx =>
      simp only [hfind] at hfe
      split at hfe
      · rename_i hcond
        simp only [Bool.and_eq_true] at hcond
        obtain ⟨⟨⟨h1, h2⟩, h3⟩, h4⟩ := hcond
        have he' : e = (op, tx, op.assetId.bind
            (fun aid => db.assets.find? (fun s => s.id == aid))) :=
          (Option.some_injective _ hfe).symm
        subst he'
        subst hre
        refine ⟨rfl, rfl, a, ha, op, hop, tx, List.mem_of_find?_eq_some hfind,
          ?_, ?_, ?_, ?_, h4⟩
        · have := List.find?_some hfind
          exact beq_iff_eq.mp this
        · exact beq_iff_eq.mp h1
        · cases hamt : op.amount with
          | none => rw [hamt] at h2; simp at h2
          | some amt =>
              rw [hamt] at h2
              exact ⟨amt, rfl, of_decide_eq_true h2⟩
        · exact of_decide_eq_true h3
      · simp at hfe

/-- Closed instance of the C7 amended theorem at the payment store. -/
theorem c7_amended_witness :
    c7res.fired = true ∧ c7res.ruleName = "large_transfer" ∧
    ∃ a ∈ watchedAccounts (c7db "payment" 150000000000),
      ∃ op ∈ (c7db "payment" 150000000000).ops,
        ∃ tx ∈ (c7db "payment" 150000000000).txs,
          tx.id = op.txId ∧ op.fromAccountId = some a.id ∧
          (∃ amt : Amount, op.amount = some amt ∧
            RULE_LARGE_TRANSFER_THRESHOLD ≤ amt) ∧
          7300 - 3600 ≤ op.createdAt ∧ tx.successful = true :=
  c7_amended_large_transfer_fires_on_threshold.1
    (c7db "payment" 150000000000) 7300 c7res (by decide)

/-! ## C10: frame of re-upserting an existing account -/

/-- C10.  Re-upserting an account that already exists changes only its
`last_seen` (set to now) and its `meta_data` (the merge of the old payload
with the freshly fetched fields): id, address, `first_seen`, `risk_score`
and label are returned unchanged, the updated row is what is stored for the
address, and no other table (nor the id allocator) is touched. -/
theorem c10_upsert_existing_account_only_touches_last_seen_and_meta
    (db : DB) (address : String) (d : AccountData) (now : Nat) (a : AccountRow)
    (hfind : db.accounts.find? (fun x => x.address == address) = some a) :
    ((upsert_account db address d now).2.id = a.id) ∧
    ((upsert_account db address d now).2.address = a.address) ∧
    ((upsert_account db address d now).2.firstSeen = a.firstSeen) ∧
    ((upsert_account db address d now).2.riskScore = a.riskScore) ∧
    ((upsert_account db address d now).2.label = a.label) ∧
    ((upsert_account db address d now).2.lastSeen = now) ∧
    ((upsert_account db address d now).2.metaData = mergeAccountMeta a.metaData d) ∧
    ((upsert_account db address d now).1.accounts.find? (fun x => x.address == address) =
      some (upsert_account db address d now).2) ∧
    ((upsert_account db address d now).1.assets = db.assets) ∧
    ((upsert_account db address d now).1.txs = db.txs) ∧
    ((upsert_account db address d now).1.ops = db.ops) ∧
    ((upsert_account db address d now).1.edges = db.edges) ∧
    ((upsert_account db address d now).1.ingestionStates = db.ingestionStates) ∧
    ((upsert_account db address d now).1.alerts = db.alerts) ∧
    ((upsert_account db address d now).1.flags = db.flags) ∧
    ((upsert_account db address d now).1.nextId = db.nextId) := by
  have hpa := List.find?_some hfind
  have hstore : (upsert_account db address d now).1.accounts.find?
      (fun x => x.address == address) = some (upsert_account db address d now).2 := by
    simp only [upsert_account, hfind]
    rw [find?_updateFirst_self (fun x => x.address == address)
        (fun _ =>
          { a with lastSeen := now, metaData := mergeAccountMeta a.metaData d })
        (fun x _ => hpa) db.accounts, hfind]
    rfl
  refine ⟨?_, ?_, ?_, ?_, ?_, ?_, ?_, hstore, ?_, ?_, ?_, ?_, ?_, ?_, ?_, ?_⟩ <;>
    simp [upsert_account, hfind]

/-- Closed instance of the C10 theorem at a concrete store. -/
theorem c10_witness :
    ((upsert_account { accounts := [c10acc], nextId := 2 } "GX" {} 99).2.id = c10acc.id) ∧
    ((upsert_account { accounts := [c10acc], nextId := 2 } "GX" {} 99).2.address = c10acc.address) ∧
    ((upsert_account { accounts := [c10acc], nextId := 2 } "GX" {} 99).2.firstSeen = c10acc.firstSeen) ∧
    ((upsert_account { accounts := [c10acc], nextId := 2 } "GX" {} 99).2.riskScore = c10acc.riskScore) ∧
    ((upsert_account { accounts := [c10acc], nextId := 2 } "GX" {} 99).2.label = c10acc.label) ∧
    ((upsert_account { accounts := [c10acc], nextId := 2 } "GX" {} 99).2.lastSeen = 99) ∧
    ((upsert_account { accounts := [c10acc], nextId := 2 } "GX" {} 99).2.metaData =
      mergeAccountMeta c10acc.metaData {}) ∧
    ((upsert_account { accounts := [c10acc], nextId := 2 } "GX" {} 99).1.accounts.find?
        (fun x => x.address == "GX") =
      some (upsert_account { accounts := [c10acc], nextId := 2 } "GX" {} 99).2) ∧
    ((upsert_account { accounts := [c10acc], nextId := 2 } "GX" {} 99).1.assets = []) ∧
    ((upsert_account { accounts := [c10acc], nextId := 2 } "GX" {} 99).1.txs = []) ∧
    ((upsert_account { accounts := [c10acc], nextId := 2 } "GX" {} 99).1.ops = []) ∧
    ((upsert_account { accounts := [c10acc], nextId := 2 } "GX" {} 99).1.edges = []) ∧
    ((upsert_account { accounts := [c10acc], nextId := 2 } "GX" {} 99).1.ingestionStates = []) ∧
    ((upsert_account { accounts := [c10acc], nextId := 2 } "GX" {} 99).1.alerts = []) ∧
    ((upsert_account { accounts := [c10acc], nextId := 2 } "GX" {} 99).1.flags = []) ∧
    ((upsert_account { accounts := [c10acc], nextId := 2 } "GX" {} 99).1.nextId = 2) :=
  c10_upsert_existing_account_only_touches_last_seen_and_meta
    { accounts := [c10acc], nextId := 2 } "GX" {} 99 c10acc rfl

/-! ## C6: risk score accumulation and clamp -/

theorem riskOf_create_flag_eq (db : DB) (res : RuleResult) (now i : Nat)
    (acc : AccountRow) (hacc : res.accountId = some i)
    (hfind : db.accounts.find? (fun a => a.id == i) = some acc) :
    riskOf (create_flag db res now) i =
      some (min 100 (acc.riskScore + (severity_scores res.severity : ℚ))) := by
  unfold create_flag riskOf
  simp only [hacc, hfind]
  rw [find?_updateFirst_self (fun a => a.id == i)
      (fun a =>
        { a with
          riskScore := min 100 (a.riskScore + (severity_scores res.severity : ℚ)) })
      (fun x hx => hx) db.accounts, hfind]
  rfl

theorem riskOf_create_flag_mono (db : DB) (res : RuleResult) (now i : Nat)
    (r : ℚ) (h : riskOf db i = some r) (hr : r ≤ 100) :
    ∃ r', riskOf (create_flag db res now) i = some r' ∧ r ≤ r' ∧ r' ≤ 100 := by
  cases hacc : res.accountId with
  | none =>
      refine ⟨r, ?_, le_refl r, hr⟩
      unfold create_flag
      simp only [hacc]
      exact h
  | some j =>
      cases hfind : db.accounts.find? (fun a => a.id == j) with
      | none =>
          refine ⟨r, ?_, le_refl r, hr⟩
          unfold create_flag riskOf
          simp only [hacc, hfind]
          exact h
      | some acc =>
          by_cases hij : i = j
          · subst hij
            have hacc' : acc.riskScore = r := by
              unfold riskOf at h
              rw [hfind] at h
              exact Option.some_injective _ h
            refine ⟨min 100 (r + (severity_scores res.severity : ℚ)), ?_, ?_, min_le_left _ _⟩
            · rw [riskOf_create_flag_eq db res now i acc hacc hfind, hacc']
            · refine le_min hr ?_
              have hnn : (0 : ℚ) ≤ (severity_scores res.severity : ℚ) := by positivity
              linarith
          · have hq : ∀ x : AccountRow, (x.id == j) = true → (x.id == i) = false := by
              intro x hx
              have hxj : x.id = j := by simpa using hx
              have hji : ¬(j = i) := fun e => hij e.symm
              rw [hxj]
              exact beq_eq_false_iff_ne.mpr hji
            refine ⟨r, ?_, le_refl r, hr⟩
            unfold create_flag riskOf
            simp only [hacc, hfind]
            rw [find?_updateFirst_other (fun a => a.id == i) (fun a => a.id == j)
              (fun a =>
                { a with
                  riskScore := min 100 (a.riskScore + (severity_scores res.severity : ℚ)) })
              (fun x => rfl) hq db.accounts]
            exact h

/-- C6.  A flag bumps the target account's risk score by exactly the
severity amount (low = 10, medium = 25, high = 50, critical = 75; unknown
severities add 0), clamped at 100: the new score is
`min 100 (old + amount)` (second conjunct), and over any sequence of flag
creations a score that starts at most 100 never decreases and never exceeds
100 (third conjunct) — in particular repeated critical flags stay at 100. -/
theorem c6_risk_score_clamped_monotone :
    (severity_scores "low" = 10 ∧ severity_scores "medium" = 25 ∧
      severity_scores "high" = 50 ∧ severity_scores "critical" = 75) ∧
    (∀ (db : DB) (res : RuleResult) (now i : Nat) (acc : AccountRow),
      res.accountId = some i →
      db.accounts.find? (fun a => a.id == i) = some acc →
      riskOf (create_flag db res now) i =
        some (min 100 (acc.riskScore + (severity_scores res.severity : ℚ)))) ∧
    (∀ (results : List RuleResult) (db : DB) (now i : Nat) (r : ℚ),
      riskOf db i = some r → r ≤ 100 →
      ∃ r', riskOf (results.foldl (fun d res => create_flag d res now) db) i = some r' ∧
        r ≤ r' ∧ r' ≤ 100) := by
  refine ⟨⟨rfl, rfl, rfl, rfl⟩, riskOf_create_flag_eq, ?_⟩
  intro results
  induction results with
  | nil => intro db now i r h hr; exact ⟨r, h, le_refl r, hr⟩
  | cons res rest ih =>
      intro db now i r h hr
      obtain ⟨r₁, h₁, hlea, hle₁'⟩ := riskOf_create_flag_mono db res now i r h hr
      obtain ⟨r₂, h₂, hle₂, hle₂'⟩ := ih (create_flag db res now) now i r₁ h₁ hle₁'
      exact ⟨r₂, h₂, le_trans hlea hle₂, hle₂'⟩

/-- Closed instance of the C6 theorem: one critical flag on a zero-risk
account, and two critical flags keeping the score within [0, 100]. -/
theorem c6_witness :
    (riskOf (create_flag c6db c6res 10) 1 =
      some (min 100 (0 + (severity_scores "critical" : ℚ)))) ∧
    (∃ r', riskOf ([c6res, c6res].foldl (fun d res => create_flag d res 10) c6db) 1 =
      some r' ∧ (0 : ℚ) ≤ r' ∧ r' ≤ 100) := by
  constructor
  · exact c6_risk_score_clamped_monotone.2.1 c6db c6res 10 1 _ rfl rfl
  · exact c6_risk_score_clamped_monotone.2.2 [c6res, c6res] c6db 10 1 0 rfl (by norm_num)

end StellarExplorer
